import Mathlib

/-!
Verification of the servipal-backend order/delivery lifecycle core:
the delivery state machine and authorization matrix
(app/services/delivery_service.py), the payment ingestion pipeline
(app/services/payment_service.py, app/routes/payment_route.py), the wallet
and escrow ledger operations (app/services/wallet_service.py,
app/services/escrow_service.py) and the commission configuration lookup
(app/utils/commission.py), shallowly embedded in Lean.  Monetary Decimal
values are embedded as rationals; Python `round(x, 2)` (rounding half to even)
is embedded as `round2`.
-/

namespace Servipal

/-- HTTP-style failure classes raised by the service layer
(`HTTPException(403/400/404/500)`); `typeError` stands for an uncaught
Python `TypeError` (surfaced as a 500 by the framework). -/
inductive HErr where
  | forbidden
  | badRequest
  | notFound
  | internalError
  | typeError
deriving DecidableEq

instance {ε α : Type} [DecidableEq ε] [DecidableEq α] : DecidableEq (Except ε α) :=
  fun a b =>
    match a, b with
    | .ok x, .ok y => if h : x = y then .isTrue (by rw [h]) else .isFalse (by intro hc; cases hc; exact h rfl)
    | .error x, .error y => if h : x = y then .isTrue (by rw [h]) else .isFalse (by intro hc; cases hc; exact h rfl)
    | .ok _, .error _ => .isFalse (by intro hc; cases hc)
    | .error _, .ok _ => .isFalse (by intro hc; cases hc)

/-- First-match association-list lookup, the embedding of a keyed
single-row database/cache read (`.eq(key, k) ... .single()`). -/
def lookupKey {α : Type} : List (String × α) → String → Option α
  | [], _ => none
  | (k, v) :: rest, k0 => if k = k0 then some v else lookupKey rest k0

/-- Deletion of a keyed cache entry (`delete_pending`). -/
def eraseKey {α : Type} (l : List (String × α)) (k : String) : List (String × α) :=
  l.filter (fun kv => kv.1 ≠ k)

/-- Python `round(q, 2)` on `Decimal` rounds half to even at the second
decimal digit; this is the integer half-even rounding it is built from. -/
def roundHalfEven (q : ℚ) : ℤ :=
  let f : ℤ := ⌊q⌋
  let r : ℚ := q - f
  if r < 1 / 2 then f
  else if 1 / 2 < r then f + 1
  else if f % 2 = 0 then f else f + 1

/-- Embedding of Python `round(q, 2)`: round to two decimal places,
ties to even. -/
def round2 (q : ℚ) : ℚ := (roundHalfEven (q * 100) : ℚ) / 100

/- ──────────────────────────────────────────────────────────────
   Delivery state machine and authorization
   (app/services/delivery_service.py)
   ────────────────────────────────────────────────────────────── -/

/-- The delivery order statuses (`DeliveryStatus` enum). -/
inductive DeliveryStatus where
  | PENDING
  | ASSIGNED
  | ACCEPTED
  | DECLINED
  | PICKED_UP
  | IN_TRANSIT
  | DELIVERED
  | COMPLETED
  | CANCELLED
deriving DecidableEq, Fintype

/-- The string value of each enum member, as stored in the status column. -/
def DeliveryStatus.value : DeliveryStatus → String
  | .PENDING => "PENDING"
  | .ASSIGNED => "ASSIGNED"
  | .ACCEPTED => "ACCEPTED"
  | .DECLINED => "DECLINED"
  | .PICKED_UP => "PICKED_UP"
  | .IN_TRANSIT => "IN_TRANSIT"
  | .DELIVERED => "DELIVERED"
  | .COMPLETED => "COMPLETED"
  | .CANCELLED => "CANCELLED"

/-- All nine delivery statuses. -/
def allDeliveryStatuses : List DeliveryStatus :=
  [.PENDING, .ASSIGNED, .ACCEPTED, .DECLINED, .PICKED_UP, .IN_TRANSIT,
   .DELIVERED, .COMPLETED, .CANCELLED]

/-- The `ALLOWED_TRANSITIONS` dict of `_validate_state_transition`;
`dict.get(current, [])` yields `[]` for a key that is absent. -/
def allowedTransitions : String → List String
  | "PENDING" => ["ASSIGNED", "CANCELLED"]
  | "ASSIGNED" => ["ACCEPTED", "DECLINED", "CANCELLED"]
  | "DECLINED" => ["ASSIGNED"]
  | "ACCEPTED" => ["PICKED_UP", "CANCELLED"]
  | "PICKED_UP" => ["IN_TRANSIT", "DELIVERED", "CANCELLED"]
  | "IN_TRANSIT" => ["DELIVERED", "CANCELLED"]
  | "DELIVERED" => ["COMPLETED", "CANCELLED"]
  | "COMPLETED" => []
  | "CANCELLED" => []
  | _ => []

/-- Embedding of `_validate_state_transition(current_status, new_status)`: raises a 400
`HTTPException` when the target is not in the allowed list of the current
status, otherwise passes. -/
def validateStateTransition (currentStatus newStatus : String) : Except HErr Unit :=
  if newStatus ∈ allowedTransitions currentStatus then .ok () else .error .badRequest

/-- Whether some current status makes the target a legal transition, i.e.
the target is reachable at all through `_validate_state_transition`. -/
def someCurrentAllows (target : DeliveryStatus) : Bool :=
  allDeliveryStatuses.any
    (fun c => decide (validateStateTransition c.value target.value = .ok ()))

/-- Embedding of `_validate_authorization(new_status, triggered_by_user_id, sender_id,
rider_id)`: the role matrix; raises a 403 `HTTPException` on a role
mismatch, otherwise passes.  `rider_id` is `None` when no rider is
assigned. -/
def validateAuthorization (newStatus : DeliveryStatus) (triggeredByUserId : String)
    (senderId : String) (riderId : Option String) : Except HErr Unit :=
  if newStatus = .ASSIGNED then
    if triggeredByUserId ≠ senderId then .error .forbidden else .ok ()
  else if newStatus = .ACCEPTED then
    if riderId = none ∨ some triggeredByUserId ≠ riderId then .error .forbidden else .ok ()
  else if newStatus = .PICKED_UP ∨ newStatus = .IN_TRANSIT ∨ newStatus = .DELIVERED then
    if riderId = none ∨ some triggeredByUserId ≠ riderId then .error .forbidden else .ok ()
  else if newStatus = .COMPLETED then
    if triggeredByUserId ≠ senderId then .error .forbidden else .ok ()
  else if newStatus = .CANCELLED then
    if ¬ (triggeredByUserId = senderId ∨ some triggeredByUserId = riderId) then
      .error .forbidden
    else .ok ()
  else if newStatus = .DECLINED then
    if riderId = none ∨ some triggeredByUserId ≠ riderId then .error .forbidden else .ok ()
  else .ok ()

/-- The delivery row fields `update_delivery_status` fetches for
validation (`id, sender_id, rider_id, delivery_status`). -/
structure DeliveryRecord where
  id : String
  senderId : String
  riderId : Option String
  deliveryStatus : String
deriving DecidableEq

/-- A database side effect performed by a status-update handler: either a
plain status column update or a stored-procedure call (the money-moving
ones being `mark_delivery_as_picked_up`, `mark_delivery_as_completed` and
`mark_delivery_as_cancelled`). -/
inductive DbEffect where
  | statusUpdate (newStatus : String)
  | rpcAssignRider
  | rpcPickedUp
  | rpcCompleted
  | rpcCancelled
  | rpcClearRiderAssignment
deriving DecidableEq

/-- The escrow-ledger (money-moving) stored procedures among the
effects of the handlers. -/
def DbEffect.isMoneyOp : DbEffect → Bool
  | .rpcPickedUp => true
  | .rpcCompleted => true
  | .rpcCancelled => true
  | _ => false

/-- Embedding of `update_delivery_status`: after fetching the delivery row it runs
`_validate_authorization`, then `_validate_state_transition`, and only
then routes to the per-status handler; a raised validation error
propagates before any handler (and hence any database write or
money-moving RPC) runs.  The result pairs the outcome with the list of
database effects the chosen handler performs. -/
def updateDeliveryStatus (delivery : DeliveryRecord) (newStatus : DeliveryStatus)
    (triggeredByUserId : String) : Except HErr String × List DbEffect :=
  match validateAuthorization newStatus triggeredByUserId delivery.senderId delivery.riderId with
  | .error e => (.error e, [])
  | .ok () =>
    match validateStateTransition delivery.deliveryStatus newStatus.value with
    | .error e => (.error e, [])
    | .ok () =>
      match newStatus with
      | .ASSIGNED => (.ok ("ASSIGNED"), [.rpcAssignRider])
      | .ACCEPTED => (.ok ("ACCEPTED"), [.statusUpdate ("ACCEPTED")])
      | .PICKED_UP => (.ok ("PICKED_UP"), [.rpcPickedUp])
      | .IN_TRANSIT => (.ok ("IN_TRANSIT"), [.statusUpdate ("IN_TRANSIT")])
      | .DELIVERED => (.ok ("DELIVERED"), [.statusUpdate ("DELIVERED")])
      | .COMPLETED => (.ok ("COMPLETED"), [.rpcCompleted])
      | .CANCELLED => (.ok ("CANCELLED"), [.rpcCancelled])
      | .DECLINED => (.ok ("DECLINED"), [.rpcClearRiderAssignment])
      | .PENDING => (.error .badRequest, [])

/- ──────────────────────────────────────────────────────────────
   Ledger data model (wallets, transactions, delivery orders)
   ────────────────────────────────────────────────────────────── -/

/-- A wallet row: spendable balance plus escrow balance. -/
structure Wallet where
  balance : ℚ
  escrowBalance : ℚ
deriving DecidableEq

/-- Embedding of `transaction_type` column values. -/
inductive TxnType where
  | DEPOSIT
  | WITHDRAWAL
  | ESCROW_HOLD
  | ESCROW_RELEASE
  | REFUNDED
deriving DecidableEq

/-- An immutable transaction (ledger) row, restricted to the fields the
ingestion pipeline reads and writes. -/
structure Txn where
  txRef : String
  amount : ℚ
  fromUserId : String
  toUserId : Option String
  orderId : Option Nat
  walletId : String
  txnType : TxnType
deriving DecidableEq

/-- A `delivery_orders` row, restricted to the fields the ingestion
pipeline writes. -/
structure DeliveryOrder where
  id : Nat
  senderId : String
  totalPrice : ℚ
  amountDueDispatch : ℚ
  deliveryFee : ℚ
  deliveryStatus : String
  paymentStatus : String
  distance : ℚ
  txRef : String
deriving DecidableEq

/-- The `charges_and_commissions` configuration row read by the delivery
ingestion pipeline. -/
structure Charges where
  baseDeliveryFee : ℚ
  deliveryFeePerKm : ℚ
  deliveryCommissionRate : ℚ
deriving DecidableEq

/-- The pending checkout intent for a delivery, as saved in Redis by
`initiate_delivery_payment`: it records the sender and the distance (the
order payload fields are irrelevant here) but no price — the fee is
recomputed at ingestion from the charges configuration. -/
structure PendingDelivery where
  senderId : String
  distance : ℚ
deriving DecidableEq

/-- The durable stores touched by the delivery ingestion pipeline. -/
structure LedgerState where
  orders : List DeliveryOrder
  transactions : List Txn
  wallets : List (String × Wallet)
  nextOrderId : Nat
deriving DecidableEq

/-- Modelled from the spec: the remote stored procedure
`update_user_wallet(p_user_id, p_balance_change, p_escrow_balance_change)`
is not under src/ (only its callers are); per the ledger-operation wording of the spec
it atomically applies the two deltas to the wallet row of the user. -/
def updateUserWallet (wallets : List (String × Wallet)) (userId : String)
    (balanceChange escrowChange : ℚ) : List (String × Wallet) :=
  wallets.map (fun kv =>
    if kv.1 = userId then
      (kv.1, { balance := kv.2.balance + balanceChange,
               escrowBalance := kv.2.escrowBalance + escrowChange })
    else kv)

/-- Full state seen by the delivery ingestion pipeline: the Redis pending
cache, the charges configuration row (absent when unconfigured) and the
ledger store. -/
structure PaymentState where
  cache : List (String × PendingDelivery)
  charges : Option Charges
  ledger : LedgerState
deriving DecidableEq

/-- Outcomes of `process_successful_delivery_payment` (the raising
branches — missing charges row, amount mismatch — propagate to the retry
queue and leave every store unchanged). -/
inductive PaymentResult where
  | verificationFailed
  | pendingNotFound
  | alreadyProcessed (orderId : Option Nat)
  | chargesNotFound
  | amountMismatch
  | success (orderId : Nat)
deriving DecidableEq

/-- The fee recomputation of the ingestion pipeline:
`round(base_delivery_fee + delivery_fee_per_km * distance, 2)`, from the
charges configuration and the stored distance only. -/
def computedDeliveryFee (charges : Charges) (distance : ℚ) : ℚ :=
  round2 (charges.baseDeliveryFee + charges.deliveryFeePerKm * distance)

/-- The `delivery_orders` row inserted by the delivery ingestion. -/
def deliveryOrderRow (orderId : Nat) (pending : PendingDelivery) (fee due : ℚ)
    (txRef : String) : DeliveryOrder :=
  { id := orderId, senderId := pending.senderId,
    totalPrice := fee, amountDueDispatch := due,
    deliveryFee := fee, deliveryStatus := "PENDING",
    paymentStatus := "SUCCESS", distance := pending.distance,
    txRef := txRef }

/-- The DEPOSIT transaction row inserted by the delivery ingestion. -/
def depositTxnRow (txRef : String) (fee : ℚ) (senderId : String)
    (orderId : Nat) : Txn :=
  { txRef := txRef, amount := fee,
    fromUserId := senderId, toUserId := some senderId,
    orderId := some orderId, walletId := senderId,
    txnType := .DEPOSIT }

/-- Embedding of `process_successful_delivery_payment(tx_ref, paid_amount, flw_ref)`:
verify with the gateway (`verified` is the outcome of
`verify_transaction_tx_ref`), fetch the pending intent from Redis, check
idempotency against the transactions table, fetch the charges row,
recompute the fee (`round(base + per_km * distance, 2)`), compare
`round(paid_amount, 2)` with it, then insert the order row, credit the
wallet of the sender, insert one DEPOSIT transaction and delete the pending
intent. -/
def processSuccessfulDeliveryPayment (txRef : String) (paidAmount : ℚ)
    (verified : Bool) (st : PaymentState) : PaymentResult × PaymentState :=
  if ¬ verified then (.verificationFailed, st)
  else
    match lookupKey st.cache ("pending_delivery_" ++ txRef) with
    | none => (.pendingNotFound, st)
    | some pending =>
      match st.ledger.transactions.find? (fun t => t.txRef == txRef) with
      | some t =>
        (.alreadyProcessed t.orderId,
         { st with cache := eraseKey st.cache ("pending_delivery_" ++ txRef) })
      | none =>
        match st.charges with
        | none => (.chargesNotFound, st)
        | some charges =>
          let deliveryFee := computedDeliveryFee charges pending.distance
          let amountDueDispatch := round2 (deliveryFee * charges.deliveryCommissionRate)
          if round2 paidAmount ≠ deliveryFee then (.amountMismatch, st)
          else
            let orderId := st.ledger.nextOrderId
            let order : DeliveryOrder :=
              deliveryOrderRow orderId pending deliveryFee amountDueDispatch txRef
            let txn : Txn := depositTxnRow txRef deliveryFee pending.senderId orderId
            (.success orderId,
             { cache := eraseKey st.cache ("pending_delivery_" ++ txRef),
               charges := st.charges,
               ledger :=
                 { orders := st.ledger.orders ++ [order],
                   transactions := st.ledger.transactions ++ [txn],
                   wallets := updateUserWallet st.ledger.wallets pending.senderId deliveryFee 0,
                   nextOrderId := orderId + 1 } })

/- ──────────────────────────────────────────────────────────────
   Webhook route (app/routes/payment_route.py)
   ────────────────────────────────────────────────────────────── -/

/-- The payment handler the webhook route selects by `tx_ref` prefix. -/
inductive PaymentHandler where
  | delivery
  | food
  | topup
  | laundry
  | product
deriving DecidableEq

/-- The fields of the webhook payload the route reads (`data.status`,
`data.tx_ref`, `data.amount`). -/
structure WebhookPayload where
  dataStatus : Option String
  txRef : Option String
  amount : ℚ
deriving DecidableEq

/-- Responses of `flutterwave_webhook`.  `typeError` is the uncaught
`TypeError` from `hmac.compare_digest(None, secret)` when the
`verif-hash` header is absent (a 500, not a 401); `unauthorized` is the
401 `HTTPException` for a present non-matching header. -/
inductive WebhookResult where
  | typeError
  | unauthorized
  | ignored
  | missingTxRef
  | alreadyProcessed (txRef : String)
  | unknownTransactionType
  | queued (txRef : String) (handler : PaymentHandler)
deriving DecidableEq

/-- The side effects of the webhook route: the idempotency query against
the transactions table and the enqueueing of a background job.  The route
itself performs no ledger writes. -/
inductive RouteEffect where
  | idempotencyQuery
  | enqueue (handler : PaymentHandler)
deriving DecidableEq

/-- Embedding of `flutterwave_webhook`: constant-time signature comparison
(`hmac.compare_digest(signature, secret_hash)` — a `TypeError` when the
header is missing), successful-status filter, idempotency check against
the transactions table, handler routing by `tx_ref` prefix, and enqueue
with 5 retries. -/
def flutterwaveWebhook (header : Option String) (secretHash : String)
    (payload : WebhookPayload) (transactions : List Txn) :
    WebhookResult × List RouteEffect :=
  match header with
  | none => (.typeError, [])
  | some signature =>
    if signature ≠ secretHash then (.unauthorized, [])
    else if payload.dataStatus ≠ some ("successful") then (.ignored, [])
    else
      match payload.txRef with
      | none => (.missingTxRef, [])
      | some txRef =>
        if (transactions.find? (fun t => t.txRef == txRef)).isSome then
          (.alreadyProcessed txRef, [.idempotencyQuery])
        else if String.startsWith txRef ("DELIVERY-") then
          (.queued txRef .delivery, [.idempotencyQuery, .enqueue .delivery])
        else if String.startsWith txRef ("FOOD-") then
          (.queued txRef .food, [.idempotencyQuery, .enqueue .food])
        else if String.startsWith txRef ("TOPUP-") then
          (.queued txRef .topup, [.idempotencyQuery, .enqueue .topup])
        else if String.startsWith txRef ("LAUNDRY-") then
          (.queued txRef .laundry, [.idempotencyQuery, .enqueue .laundry])
        else if String.startsWith txRef ("PRODUCT-") then
          (.queued txRef .product, [.idempotencyQuery, .enqueue .product])
        else (.unknownTransactionType, [.idempotencyQuery])

/- ──────────────────────────────────────────────────────────────
   Escrow ledger operations and wallet invariants
   (app/services/wallet_service.py, app/services/escrow_service.py)
   ────────────────────────────────────────────────────────────── -/

/-- Embedding of `verify_wallet_balance(customer_id, required_amount)`: reads the
wallet row and raises a 400 `HTTPException` (insufficient_balance) when
`balance < required_amount`, a 404 when the wallet row is absent. -/
def verifyWalletBalance (wallets : List (String × Wallet)) (customerId : String)
    (requiredAmount : ℚ) : Except HErr ℚ :=
  match lookupKey wallets customerId with
  | none => .error .notFound
  | some w =>
    if w.balance < requiredAmount then .error .badRequest else .ok w.balance

/-- The wallets table as a total map keyed by `user_id` (one row per
user). -/
def WalletMap : Type := String → Wallet

/-- Overwrite one wallet row. -/
def setWallet (m : WalletMap) (userId : String) (w : Wallet) : WalletMap :=
  fun u => if u = userId then w else m u

/-- The two wallet columns addressed by the `p_field` argument of the
`update_wallet_balance` stored procedure. -/
inductive WalletField where
  | balanceField
  | escrowField
deriving DecidableEq

/-- Modelled from the spec: the remote stored procedure
`update_wallet_balance(p_user_id, p_delta, p_field)` is not under src/
(only its callers are); per the ledger wording of the spec it adds the delta
to the named wallet column. -/
def updateWalletBalance (m : WalletMap) (userId : String) (delta : ℚ)
    (field : WalletField) : WalletMap :=
  match field with
  | .balanceField => setWallet m userId { m userId with balance := (m userId).balance + delta }
  | .escrowField => setWallet m userId { m userId with escrowBalance := (m userId).escrowBalance + delta }

/-- An `escrow_agreements` row, restricted to the fields
`fund_escrow_agreement` reads. -/
structure EscrowAgreement where
  id : String
  amount : ℚ
  status : String
  initiatorId : String
deriving DecidableEq

/-- Embedding of `fund_escrow_agreement(agreement_id, initiator_id)`: checks that the
agreement exists, that the caller is the initiator and that the status is
READY_FOR_FUNDING, then debits the balance of the initiator by the full amount
and credits the same amount to escrow — there is no check that the
balance covers the amount. -/
def fundEscrowAgreement (agreements : List EscrowAgreement)
    (agreementId initiatorId : String) (m : WalletMap) :
    Except HErr (String × WalletMap) :=
  match agreements.find? (fun a => a.id == agreementId) with
  | none => .error .notFound
  | some ag =>
    if ag.initiatorId ≠ initiatorId then .error .forbidden
    else if ag.status ≠ "READY_FOR_FUNDING" then .error .badRequest
    else
      let m1 := updateWalletBalance m initiatorId (-ag.amount) .balanceField
      let m2 := updateWalletBalance m1 initiatorId ag.amount .escrowField
      .ok ("FUNDED", m2)

/-- Modelled from the spec: the four escrow ledger primitives of §4.2
(Hold, Release, Refund, Deposit) are implemented by remote stored
procedures that are not under src/; each is an atomic guarded operation
whose precondition failure is a rejection that leaves the ledger
untouched. -/
inductive LedgerOp where
  | hold (payer : String) (amount : ℚ)
  | release (payer payee : String) (fullAmount payeeShare : ℚ)
  | refund (payer : String) (amount : ℚ)
  | deposit (user : String) (amount : ℚ)

/-- Modelled from the spec: one guarded ledger primitive applied to the
wallet table.  Hold requires `payer.balance ≥ amount` (§4.2 precondition,
the check `verify_wallet_balance` performs); Release and Refund require
the held amount to still be in the escrow of the payer (the prior un-released
ESCROW_HOLD of §4.2); amounts and the payee share are non-negative.  A
failed precondition rejects the operation and leaves every wallet
unchanged. -/
def applyOp (m : WalletMap) : LedgerOp → WalletMap
  | .hold payer amount =>
    let w := m payer
    if 0 ≤ amount ∧ amount ≤ w.balance then
      setWallet m payer { balance := w.balance - amount, escrowBalance := w.escrowBalance + amount }
    else m
  | .release payer payee fullAmount payeeShare =>
    let w := m payer
    if 0 ≤ payeeShare ∧ payeeShare ≤ fullAmount ∧ fullAmount ≤ w.escrowBalance then
      let m1 := setWallet m payer { w with escrowBalance := w.escrowBalance - fullAmount }
      let wp := m1 payee
      setWallet m1 payee { wp with balance := wp.balance + payeeShare }
    else m
  | .refund payer amount =>
    let w := m payer
    if 0 ≤ amount ∧ amount ≤ w.escrowBalance then
      setWallet m payer { balance := w.balance + amount, escrowBalance := w.escrowBalance - amount }
    else m
  | .deposit user amount =>
    let w := m user
    if 0 ≤ amount then
      setWallet m user { w with balance := w.balance + amount }
    else m

/-- Every wallet has non-negative spendable and escrow balances. -/
def WalletsNonneg (m : WalletMap) : Prop :=
  ∀ u : String, 0 ≤ (m u).balance ∧ 0 ≤ (m u).escrowBalance

/- ──────────────────────────────────────────────────────────────
   Commission configuration lookup (app/utils/commission.py)
   ────────────────────────────────────────────────────────────── -/

/-- The commission-percentage columns of `charges_and_commissions`. -/
structure CommissionRow where
  deliveryCommissionPercentage : ℚ
  foodCommissionPercentage : ℚ
  laundryCommissionPercentage : ℚ
  productCommissionPercentage : ℚ
deriving DecidableEq

/-- The `column_map` of `get_commission_rate`. -/
def commissionColumnMap : List (String × String) :=
  [("DELIVERY", "delivery_commission_percentage"),
   ("FOOD", "food_commission_percentage"),
   ("LAUNDRY", "laundry_commission_percentage"),
   ("PRODUCT", "product_commission_percentage")]

/-- Column access on the configuration row. -/
def commissionColumnValue (row : CommissionRow) : String → ℚ
  | "delivery_commission_percentage" => row.deliveryCommissionPercentage
  | "food_commission_percentage" => row.foodCommissionPercentage
  | "laundry_commission_percentage" => row.laundryCommissionPercentage
  | "product_commission_percentage" => row.productCommissionPercentage
  | _ => 0

/-- The `ValueError` raised for an order type outside `column_map`. -/
inductive CommissionError where
  | unknownOrderType
deriving DecidableEq

/-- Embedding of `get_commission_rate(order_type)`: raises `ValueError` for an unknown
order type; when the configuration row is absent it logs a warning and
returns the fallback rate 0.8; otherwise it returns the configured
column. -/
def getCommissionRate (orderType : String) (row : Option CommissionRow) :
    Except CommissionError ℚ :=
  match lookupKey commissionColumnMap orderType with
  | none => .error .unknownOrderType
  | some column =>
    match row with
    | none => .ok (4 / 5)
    | some r => .ok (commissionColumnValue r column)

/- ──────────────────────────────────────────────────────────────
   Wallet top-up (app/services/wallet_service.py,
   app/services/payment_service.py)
   ────────────────────────────────────────────────────────────── -/

/-- The pending checkout intent a top-up initiation saves in Redis. -/
structure PendingTopup where
  userId : String
  amount : ℚ
deriving DecidableEq

/-- The `MAX_BALANCE` cap of `initiate_wallet_top_up` (₦50,000). -/
def MAX_BALANCE : ℚ := 50000

/-- Embedding of `initiate_wallet_top_up(data, user_id)`: reads the current balance
(0 when the wallet row is absent), raises a 400 `HTTPException` when the
balance is already at the cap or the top-up would exceed it, and only
then creates the pending checkout intent. -/
def initiateWalletTopUp (wallets : List (String × Wallet)) (userId : String)
    (amount : ℚ) : Except HErr PendingTopup :=
  let currentBalance := ((lookupKey wallets userId).map Wallet.balance).getD 0
  if MAX_BALANCE ≤ currentBalance then .error .badRequest
  else if MAX_BALANCE < currentBalance + amount then .error .badRequest
  else .ok { userId := userId, amount := amount }

/-- Outcomes of `process_successful_topup_payment`. -/
inductive TopupResult where
  | verificationFailed
  | pendingNotFound
  | amountMismatch
  | alreadyProcessed
  | success
deriving DecidableEq

/-- State seen by the top-up ingestion: the Redis pending cache, the
transactions table and the wallets table. -/
structure TopupState where
  cache : List (String × PendingTopup)
  transactions : List Txn
  wallets : List (String × Wallet)
deriving DecidableEq

/-- Embedding of `process_successful_topup_payment(tx_ref, paid_amount, flw_ref)`:
verify with the gateway, fetch the pending intent, compare the rounded
amounts, then call the `process_topup_payment` stored procedure.
Modelled from the spec for the stored procedure (not under src/): it is
idempotent by `tx_ref` and otherwise performs the Deposit primitive,
adding the paid amount to the balance of the user and inserting one DEPOSIT
transaction.  No balance-cap check occurs anywhere on this path. -/
def processSuccessfulTopupPayment (txRef : String) (paidAmount : ℚ)
    (verified : Bool) (st : TopupState) : TopupResult × TopupState :=
  if ¬ verified then (.verificationFailed, st)
  else
    match lookupKey st.cache ("pending_topup_" ++ txRef) with
    | none => (.pendingNotFound, st)
    | some pending =>
      if round2 paidAmount ≠ round2 pending.amount then
        (.amountMismatch, { st with cache := eraseKey st.cache ("pending_topup_" ++ txRef) })
      else if (st.transactions.find? (fun t => t.txRef == txRef)).isSome then
        (.alreadyProcessed, { st with cache := eraseKey st.cache ("pending_topup_" ++ txRef) })
      else
        let txn : Txn :=
          { txRef := txRef, amount := round2 paidAmount,
            fromUserId := pending.userId, toUserId := some pending.userId,
            orderId := none, walletId := pending.userId, txnType := .DEPOSIT }
        (.success,
         { cache := eraseKey st.cache ("pending_topup_" ++ txRef),
           transactions := st.transactions ++ [txn],
           wallets := updateUserWallet st.wallets pending.userId (round2 paidAmount) 0 })

/- ──────────────────────────────────────────────────────────────
   Concrete fixture states
   ────────────────────────────────────────────────────────────── -/

/-- A concrete ingestion state: one fresh pending delivery DELIVERY-ABC,
an empty ledger, charges configured with base fee 100, zero per-km fee
and dispatch share 0.8. -/
def stDeliveryFresh : PaymentState :=
  { cache := [("pending_delivery_DELIVERY-ABC", { senderId := "s", distance := 0 })],
    charges := some { baseDeliveryFee := 100, deliveryFeePerKm := 0,
                      deliveryCommissionRate := 4 / 5 },
    ledger := { orders := [], transactions := [],
                wallets := [("s", { balance := 0, escrowBalance := 0 })],
                nextOrderId := 1 } }

/-- The already-recorded ledger row of transaction DELIVERY-XYZ
(order 7). -/
def dupDepositTxn : Txn :=
  { txRef := "DELIVERY-XYZ", amount := 100, fromUserId := "s",
    toUserId := some ("s"), orderId := some 7, walletId := "s",
    txnType := .DEPOSIT }

/-- A concrete ingestion state where transaction DELIVERY-XYZ already has
a ledger row (for order 7) but its pending-cache entry has been
evicted. -/
def stDeliveryDup : PaymentState :=
  { cache := [],
    charges := some { baseDeliveryFee := 100, deliveryFeePerKm := 0,
                      deliveryCommissionRate := 4 / 5 },
    ledger := { orders := [], transactions := [dupDepositTxn],
                wallets := [("s", { balance := 100, escrowBalance := 0 })],
                nextOrderId := 8 } }

/- ──────────────────────────────────────────────────────────────
   General lemmas
   ────────────────────────────────────────────────────────────── -/

theorem lookupKey_eraseKey_self {α : Type} (l : List (String × α)) (k : String) :
    lookupKey (eraseKey l k) k = none := by
  induction l with
  | nil => rfl
  | cons kv rest ih =>
    obtain ⟨k1, v1⟩ := kv
    by_cases h : k1 = k
    · simpa [eraseKey, List.filter_cons, h] using ih
    · simpa [eraseKey, List.filter_cons, h, lookupKey] using ih

theorem roundHalfEven_intCast_add (n : ℤ) (ε : ℚ) (h : |ε| < 1 / 2) :
    roundHalfEven ((n : ℚ) + ε) = n := by
  have hlo : -(1 / 2 : ℚ) < ε := neg_lt_of_abs_lt h
  have hhi : ε < 1 / 2 := lt_of_abs_lt h
  rcases le_or_lt 0 ε with hpos | hneg
  · have hf : ⌊(n : ℚ) + ε⌋ = n := by
      rw [Int.floor_eq_iff]
      constructor
      · linarith
      · linarith
    have h1 : (n : ℚ) + ε - ((n : ℤ) : ℚ) < 1 / 2 := by
      linarith
    simp only [roundHalfEven, hf, if_pos h1]
  · have hf : ⌊(n : ℚ) + ε⌋ = n - 1 := by
      rw [Int.floor_eq_iff]
      constructor
      · push_cast
        linarith
      · push_cast
        linarith
    have h1 : ¬ ((n : ℚ) + ε - ((n - 1 : ℤ) : ℚ) < 1 / 2) := by
      push_cast
      intro hc
      linarith
    have h2 : (1 / 2 : ℚ) < (n : ℚ) + ε - ((n - 1 : ℤ) : ℚ) := by
      push_cast
      linarith
    simp only [roundHalfEven, hf, if_neg h1, if_pos h2]
    omega

theorem roundHalfEven_intCast (n : ℤ) : roundHalfEven (n : ℚ) = n := by
  have h := roundHalfEven_intCast_add n 0 (by norm_num)
  simpa using h

theorem round2_int_div (n : ℤ) : round2 ((n : ℚ) / 100) = (n : ℚ) / 100 := by
  unfold round2
  rw [div_mul_cancel₀ _ (by norm_num : (100 : ℚ) ≠ 0), roundHalfEven_intCast]

theorem round2_intCast (n : ℤ) : round2 (n : ℚ) = (n : ℚ) := by
  unfold round2
  have harg : (n : ℚ) * 100 = ((n * 100 : ℤ) : ℚ) := by push_cast; ring
  rw [harg, roundHalfEven_intCast]
  push_cast
  field_simp

theorem round2_add_small (n : ℤ) (ε : ℚ) (h : |ε| < 1 / 200) :
    round2 ((n : ℚ) / 100 + ε) = (n : ℚ) / 100 := by
  unfold round2
  have harg : ((n : ℚ) / 100 + ε) * 100 = (n : ℚ) + ε * 100 := by
    rw [add_mul, div_mul_cancel₀ _ (by norm_num : (100 : ℚ) ≠ 0)]
  have habs : |ε * 100| < 1 / 2 := by
    rw [abs_mul]
    have h100 : |(100 : ℚ)| = 100 := by norm_num
    rw [h100]
    linarith
  rw [harg, roundHalfEven_intCast_add n (ε * 100) habs]

theorem round2_stable_under_residue (q ε : ℚ) (h : |ε| < 1 / 200) :
    round2 (round2 q + ε) = round2 q := by
  have hshape : round2 q = ((roundHalfEven (q * 100) : ℤ) : ℚ) / 100 := rfl
  rw [hshape, round2_add_small _ _ h]

/- ──────────────────────────────────────────────────────────────
   Behaviour of the delivery ingestion on each branch
   ────────────────────────────────────────────────────────────── -/

theorem processDelivery_pendingEvicted (txRef : String) (paid : ℚ) (st : PaymentState)
    (h : lookupKey st.cache ("pending_delivery_" ++ txRef) = none) :
    processSuccessfulDeliveryPayment txRef paid true st = (.pendingNotFound, st) := by
  simp [processSuccessfulDeliveryPayment, h]

theorem processDelivery_duplicate (txRef : String) (paid : ℚ) (st : PaymentState)
    (p : PendingDelivery) (t : Txn)
    (hp : lookupKey st.cache ("pending_delivery_" ++ txRef) = some p)
    (ht : st.ledger.transactions.find? (fun t0 => t0.txRef == txRef) = some t) :
    processSuccessfulDeliveryPayment txRef paid true st =
      (.alreadyProcessed t.orderId,
       { st with cache := eraseKey st.cache ("pending_delivery_" ++ txRef) }) := by
  simp [processSuccessfulDeliveryPayment, hp, ht]

theorem processDelivery_amountMismatch (txRef : String) (paid : ℚ) (st : PaymentState)
    (p : PendingDelivery) (c : Charges)
    (hp : lookupKey st.cache ("pending_delivery_" ++ txRef) = some p)
    (ht : st.ledger.transactions.find? (fun t0 => t0.txRef == txRef) = none)
    (hc : st.charges = some c)
    (hne : round2 paid ≠ computedDeliveryFee c p.distance) :
    processSuccessfulDeliveryPayment txRef paid true st = (.amountMismatch, st) := by
  simp [processSuccessfulDeliveryPayment, hp, ht, hc, hne]

theorem processDelivery_success (txRef : String) (paid : ℚ) (st : PaymentState)
    (p : PendingDelivery) (c : Charges)
    (hp : lookupKey st.cache ("pending_delivery_" ++ txRef) = some p)
    (ht : st.ledger.transactions.find? (fun t0 => t0.txRef == txRef) = none)
    (hc : st.charges = some c)
    (heq : round2 paid = computedDeliveryFee c p.distance) :
    processSuccessfulDeliveryPayment txRef paid true st =
      (.success st.ledger.nextOrderId,
       { cache := eraseKey st.cache ("pending_delivery_" ++ txRef),
         charges := st.charges,
         ledger :=
           { orders := st.ledger.orders ++
               [deliveryOrderRow st.ledger.nextOrderId p (computedDeliveryFee c p.distance)
                 (round2 (computedDeliveryFee c p.distance * c.deliveryCommissionRate)) txRef],
             transactions := st.ledger.transactions ++
               [depositTxnRow txRef (computedDeliveryFee c p.distance) p.senderId
                 st.ledger.nextOrderId],
             wallets := updateUserWallet st.ledger.wallets p.senderId
               (computedDeliveryFee c p.distance) 0,
             nextOrderId := st.ledger.nextOrderId + 1 } }) := by
  simp [processSuccessfulDeliveryPayment, hp, ht, hc, heq]

theorem find?_eq_none_of_filter_eq_nil {α : Type} (pr : α → Bool) (l : List α)
    (h : l.filter pr = []) : l.find? pr = none := by
  rw [List.find?_eq_none]
  intro x hx
  exact List.filter_eq_nil_iff.mp h x hx

/- ──────────────────────────────────────────────────────────────
   C1: two identical ingestion calls
   ────────────────────────────────────────────────────────────── -/

/-- C1 (amended): two calls of `process_successful_delivery_payment` with
identical arguments on a fresh state produce exactly one order row and
exactly one DEPOSIT (not ESCROW_HOLD) transaction row tagged with the
tx_ref; the second call performs zero writes — it returns
`pending_not_found` (rather than an already-processed result), because
the first call deleted the pending intent and the idempotency check runs
only after the pending lookup. -/
theorem delivery_ingestion_two_identical_calls (txRef : String) (paid : ℚ)
    (st : PaymentState) (p : PendingDelivery) (c : Charges)
    (hp : lookupKey st.cache ("pending_delivery_" ++ txRef) = some p)
    (htx : st.ledger.transactions.filter (fun t => t.txRef == txRef) = [])
    (hord : st.ledger.orders.filter (fun o => o.txRef == txRef) = [])
    (hc : st.charges = some c)
    (heq : round2 paid = computedDeliveryFee c p.distance) :
    ((processSuccessfulDeliveryPayment txRef paid true st).2.ledger.orders.filter
        (fun o => o.txRef == txRef)).length = 1
    ∧ ((processSuccessfulDeliveryPayment txRef paid true st).2.ledger.transactions.filter
        (fun t => t.txRef == txRef && t.txnType == TxnType.DEPOSIT)).length = 1
    ∧ processSuccessfulDeliveryPayment txRef paid true
        (processSuccessfulDeliveryPayment txRef paid true st).2 =
      (.pendingNotFound, (processSuccessfulDeliveryPayment txRef paid true st).2) := by
  have ht : st.ledger.transactions.find? (fun t0 => t0.txRef == txRef) = none :=
    find?_eq_none_of_filter_eq_nil _ _ htx
  have h1 := processDelivery_success txRef paid st p c hp ht hc heq
  have htx2 : st.ledger.transactions.filter
      (fun t => t.txRef == txRef && t.txnType == TxnType.DEPOSIT) = [] := by
    rw [List.filter_eq_nil_iff] at htx ⊢
    intro a ha
    have h2 := htx a ha
    simp only [Bool.and_eq_true]
    intro hcontra
    exact h2 hcontra.1
  rw [h1]
  refine ⟨?_, ?_, ?_⟩
  · simp [List.filter_append, hord, deliveryOrderRow]
  · simp [List.filter_append, htx2, depositTxnRow]
  · exact processDelivery_pendingEvicted _ _ _ (lookupKey_eraseKey_self _ _)

/-- Witness for C1 (amended), on the concrete fresh state: one matching
order row, one matching DEPOSIT row, and the second identical call
returns `pending_not_found` without writing. -/
theorem delivery_ingestion_two_identical_calls_witness :
    ((processSuccessfulDeliveryPayment ("DELIVERY-ABC") 100 true stDeliveryFresh).2.ledger.orders.filter
        (fun o => o.txRef == ("DELIVERY-ABC"))).length = 1
    ∧ ((processSuccessfulDeliveryPayment ("DELIVERY-ABC") 100 true stDeliveryFresh).2.ledger.transactions.filter
        (fun t => t.txRef == ("DELIVERY-ABC") && t.txnType == TxnType.DEPOSIT)).length = 1
    ∧ processSuccessfulDeliveryPayment ("DELIVERY-ABC") 100 true
        (processSuccessfulDeliveryPayment ("DELIVERY-ABC") 100 true stDeliveryFresh).2 =
      (.pendingNotFound, (processSuccessfulDeliveryPayment ("DELIVERY-ABC") 100 true stDeliveryFresh).2) :=
  delivery_ingestion_two_identical_calls ("DELIVERY-ABC") 100 stDeliveryFresh
    { senderId := "s", distance := 0 }
    { baseDeliveryFee := 100, deliveryFeePerKm := 0, deliveryCommissionRate := 4 / 5 }
    (by decide) rfl rfl rfl
    (by unfold computedDeliveryFee; norm_num)

/-- Counterexample for C1 as stated: on the concrete fresh state the two
identical calls leave zero ESCROW_HOLD rows tagged DELIVERY-ABC (the
inserted row is a DEPOSIT), and the second call returns
`pending_not_found`, not an already-processed result carrying the
existing order id. -/
theorem delivery_ingestion_claim_counterexample :
    ((processSuccessfulDeliveryPayment ("DELIVERY-ABC") 100 true stDeliveryFresh).2.ledger.transactions.filter
        (fun t => t.txRef == ("DELIVERY-ABC") && t.txnType == TxnType.ESCROW_HOLD)).length = 0
    ∧ (processSuccessfulDeliveryPayment ("DELIVERY-ABC") 100 true
        (processSuccessfulDeliveryPayment ("DELIVERY-ABC") 100 true stDeliveryFresh).2).1 =
      .pendingNotFound
    ∧ PaymentResult.pendingNotFound ≠ .alreadyProcessed (some 1) := by
  have hp : lookupKey stDeliveryFresh.cache ("pending_delivery_" ++ "DELIVERY-ABC") =
      some { senderId := "s", distance := 0 } := by decide
  have ht : stDeliveryFresh.ledger.transactions.find?
      (fun t0 => t0.txRef == ("DELIVERY-ABC")) = none := rfl
  have heq : round2 (100 : ℚ) =
      computedDeliveryFee
        { baseDeliveryFee := 100, deliveryFeePerKm := 0, deliveryCommissionRate := 4 / 5 } 0 := by
    unfold computedDeliveryFee
    norm_num
  have h1 := processDelivery_success ("DELIVERY-ABC") 100 stDeliveryFresh
    { senderId := "s", distance := 0 }
    { baseDeliveryFee := 100, deliveryFeePerKm := 0, deliveryCommissionRate := 4 / 5 }
    hp ht rfl heq
  rw [h1]
  refine ⟨?_, ?_, ?_⟩
  · simp [stDeliveryFresh, depositTxnRow]
  · rw [processDelivery_pendingEvicted _ _ _ (lookupKey_eraseKey_self _ _)]
  · simp

/- ──────────────────────────────────────────────────────────────
   C2: transition table
   ────────────────────────────────────────────────────────────── -/

/-- C2: `_validate_state_transition` accepts exactly the pairs of the
transition table — PENDING→{ASSIGNED,CANCELLED},
ASSIGNED→{ACCEPTED,DECLINED,CANCELLED}, DECLINED→{ASSIGNED},
ACCEPTED→{PICKED_UP,CANCELLED}, PICKED_UP→{IN_TRANSIT,DELIVERED,CANCELLED},
IN_TRANSIT→{DELIVERED,CANCELLED}, DELIVERED→{COMPLETED,CANCELLED}, with
COMPLETED and CANCELLED terminal — and rejects every other pair; in
particular ASSIGNED is reachable again from DECLINED. -/
theorem delivery_transition_table_exact :
    (∀ c t : DeliveryStatus,
      validateStateTransition c.value t.value = .ok () ↔
        (c, t) ∈ ([(.PENDING, .ASSIGNED), (.PENDING, .CANCELLED),
          (.ASSIGNED, .ACCEPTED), (.ASSIGNED, .DECLINED), (.ASSIGNED, .CANCELLED),
          (.DECLINED, .ASSIGNED),
          (.ACCEPTED, .PICKED_UP), (.ACCEPTED, .CANCELLED),
          (.PICKED_UP, .IN_TRANSIT), (.PICKED_UP, .DELIVERED), (.PICKED_UP, .CANCELLED),
          (.IN_TRANSIT, .DELIVERED), (.IN_TRANSIT, .CANCELLED),
          (.DELIVERED, .COMPLETED), (.DELIVERED, .CANCELLED)] :
          List (DeliveryStatus × DeliveryStatus)))
    ∧ validateStateTransition ("DECLINED") ("ASSIGNED") = .ok () := by
  constructor
  · decide
  · decide

/-- Witness for C2: the DECLINED → ASSIGNED edge is accepted. -/
theorem delivery_transition_table_exact_witness :
    validateStateTransition (DeliveryStatus.DECLINED).value (DeliveryStatus.ASSIGNED).value =
      .ok () :=
  (delivery_transition_table_exact.1 .DECLINED .ASSIGNED).mpr (by decide)

/- ──────────────────────────────────────────────────────────────
   C3: authorization matrix
   ────────────────────────────────────────────────────────────── -/

/-- C3: `_validate_authorization` permits ASSIGNED and COMPLETED exactly
for the sender, ACCEPTED, DECLINED, PICKED_UP, IN_TRANSIT and DELIVERED
exactly for the assigned rider, CANCELLED exactly for sender or rider;
CANCELLED is the only transition-reachable target both parties are
authorized for, and a rider requesting COMPLETED is rejected with a 403
regardless of the current status (the check does not read the status). -/
theorem delivery_authorization_matrix (actor sender rider : String)
    (hsr : sender ≠ rider) :
    (validateAuthorization .ASSIGNED actor sender (some rider) = .ok () ↔ actor = sender)
    ∧ (validateAuthorization .COMPLETED actor sender (some rider) = .ok () ↔ actor = sender)
    ∧ (validateAuthorization .ACCEPTED actor sender (some rider) = .ok () ↔ actor = rider)
    ∧ (validateAuthorization .DECLINED actor sender (some rider) = .ok () ↔ actor = rider)
    ∧ (validateAuthorization .PICKED_UP actor sender (some rider) = .ok () ↔ actor = rider)
    ∧ (validateAuthorization .IN_TRANSIT actor sender (some rider) = .ok () ↔ actor = rider)
    ∧ (validateAuthorization .DELIVERED actor sender (some rider) = .ok () ↔ actor = rider)
    ∧ (validateAuthorization .CANCELLED actor sender (some rider) = .ok () ↔
         (actor = sender ∨ actor = rider))
    ∧ (∀ target : DeliveryStatus,
         validateAuthorization target sender sender (some rider) = .ok () →
         validateAuthorization target rider sender (some rider) = .ok () →
         someCurrentAllows target = true → target = .CANCELLED)
    ∧ (∀ riderOpt : Option String,
         validateAuthorization .COMPLETED rider sender riderOpt = .error .forbidden) := by
  refine ⟨?_, ?_, ?_, ?_, ?_, ?_, ?_, ?_, ?_, ?_⟩
  · by_cases h : actor = sender <;> simp [validateAuthorization, h]
  · by_cases h : actor = sender <;> simp [validateAuthorization, h]
  · by_cases h : actor = rider <;> simp [validateAuthorization, h]
  · by_cases h : actor = rider <;> simp [validateAuthorization, h]
  · by_cases h : actor = rider <;> simp [validateAuthorization, h]
  · by_cases h : actor = rider <;> simp [validateAuthorization, h]
  · by_cases h : actor = rider <;> simp [validateAuthorization, h]
  · by_cases h1 : actor = sender <;> by_cases h2 : actor = rider <;>
      simp [validateAuthorization, h1, h2]
  · intro target hs hr hall
    cases target
    case CANCELLED => rfl
    case PENDING => exact absurd hall (by decide)
    case ASSIGNED => simp [validateAuthorization, hsr.symm] at hr
    case ACCEPTED => simp [validateAuthorization, hsr] at hs
    case DECLINED => simp [validateAuthorization, hsr] at hs
    case PICKED_UP => simp [validateAuthorization, hsr] at hs
    case IN_TRANSIT => simp [validateAuthorization, hsr] at hs
    case DELIVERED => simp [validateAuthorization, hsr] at hs
    case COMPLETED => simp [validateAuthorization, hsr.symm] at hr
  · intro riderOpt
    simp [validateAuthorization, hsr.symm]

/-- Witness for C3: with sender s and assigned rider r, the rider calling
COMPLETED is rejected with a 403. -/
theorem delivery_authorization_matrix_witness :
    validateAuthorization .COMPLETED ("r") ("s") (some ("r")) = .error .forbidden :=
  (delivery_authorization_matrix ("r") ("s") ("r") (by decide)).2.2.2.2.2.2.2.2.2 (some ("r"))

/- ──────────────────────────────────────────────────────────────
   C8: checks run before money operations
   ────────────────────────────────────────────────────────────── -/

/-- C8: `update_delivery_status` evaluates the (pure) authorization and
transition checks before routing to any handler: a request that fails
either check produces an error and an empty effect list — no status
update, no stored-procedure call, hence no escrow ledger operation and no
wallet mutation. -/
theorem delivery_checks_precede_money_ops (delivery : DeliveryRecord)
    (newStatus : DeliveryStatus) (actor : String)
    (h : validateAuthorization newStatus actor delivery.senderId delivery.riderId ≠ .ok ()
         ∨ validateStateTransition delivery.deliveryStatus newStatus.value ≠ .ok ()) :
    (updateDeliveryStatus delivery newStatus actor).2 = []
    ∧ ∃ e, (updateDeliveryStatus delivery newStatus actor).1 = .error e := by
  rcases hva : validateAuthorization newStatus actor delivery.senderId delivery.riderId with e | u
  · refine ⟨?_, ⟨e, ?_⟩⟩ <;> simp [updateDeliveryStatus, hva]
  · cases u
    rcases hvt : validateStateTransition delivery.deliveryStatus newStatus.value with e | u
    · refine ⟨?_, ⟨e, ?_⟩⟩ <;> simp [updateDeliveryStatus, hva, hvt]
    · cases u
      rcases h with h | h
      · exact absurd hva h
      · exact absurd hvt h

/-- Witness for C8: a rider calling COMPLETED on a PENDING delivery fails
authorization, and the request produces no database effects. -/
theorem delivery_checks_precede_money_ops_witness :
    (updateDeliveryStatus ⟨("d1"), ("s"), some ("r"), ("PENDING")⟩ .COMPLETED ("r")).2 = []
    ∧ ∃ e, (updateDeliveryStatus ⟨("d1"), ("s"), some ("r"), ("PENDING")⟩ .COMPLETED ("r")).1 =
        .error e :=
  delivery_checks_precede_money_ops _ _ _ (Or.inl (by decide))

/- ──────────────────────────────────────────────────────────────
   C9: webhook signature check
   ────────────────────────────────────────────────────────────── -/

/-- C9 (amended): a present `verif-hash` header that does not match the
shared secret makes the webhook return 401 with no processing at all —
no idempotency lookup, no enqueued job, no write. -/
theorem webhook_bad_signature_rejected (header secretHash : String)
    (payload : WebhookPayload) (transactions : List Txn)
    (h : header ≠ secretHash) :
    flutterwaveWebhook (some header) secretHash payload transactions = (.unauthorized, []) := by
  simp [flutterwaveWebhook, h]

/-- Witness for C9. -/
theorem webhook_bad_signature_rejected_witness :
    flutterwaveWebhook (some ("x")) ("y")
      { dataStatus := some ("successful"), txRef := some ("TOPUP-1"), amount := 5 } [] =
      (.unauthorized, []) :=
  webhook_bad_signature_rejected ("x") ("y") _ _ (by decide)

/-- Counterexample for C9 as stated: with the `verif-hash` header absent,
`hmac.compare_digest(None, secret)` raises a `TypeError` (a 500), not the
claimed 401 unauthorized rejection. -/
theorem webhook_missing_header_typeError :
    flutterwaveWebhook none ("secret")
      { dataStatus := some ("successful"), txRef := some ("TOPUP-1"), amount := 5 } [] =
      (.typeError, [])
    ∧ WebhookResult.typeError ≠ WebhookResult.unauthorized :=
  ⟨rfl, by decide⟩

/- ──────────────────────────────────────────────────────────────
   C4: the idempotency boundary
   ────────────────────────────────────────────────────────────── -/

/-- C4 (amended): the webhook route checks the transactions table before
anything else touches the pending cache, and short-circuits a duplicate
with an already-processed response (carrying the tx_ref, not the order
id) and no job enqueued; the service-level idempotency check returns the
existing order id only when the pending intent is still cached — when the
cache has been evicted the service returns `pending_not_found` before the
idempotency check runs. -/
theorem ingestion_idempotency_boundary
    (secretHash : String) (payload : WebhookPayload) (transactions : List Txn)
    (txRef : String) (t : Txn) (paid : ℚ) (st : PaymentState) (p : PendingDelivery)
    (hstatus : payload.dataStatus = some ("successful"))
    (htx : payload.txRef = some txRef)
    (hdup : transactions.find? (fun t0 => t0.txRef == txRef) = some t) :
    flutterwaveWebhook (some secretHash) secretHash payload transactions =
      (.alreadyProcessed txRef, [.idempotencyQuery])
    ∧ (lookupKey st.cache ("pending_delivery_" ++ txRef) = none →
        processSuccessfulDeliveryPayment txRef paid true st = (.pendingNotFound, st))
    ∧ (lookupKey st.cache ("pending_delivery_" ++ txRef) = some p →
        st.ledger.transactions.find? (fun t0 => t0.txRef == txRef) = some t →
        processSuccessfulDeliveryPayment txRef paid true st =
          (.alreadyProcessed t.orderId,
           { st with cache := eraseKey st.cache ("pending_delivery_" ++ txRef) })) := by
  refine ⟨?_, ?_, ?_⟩
  · simp [flutterwaveWebhook, hstatus, htx, hdup]
  · intro h
    exact processDelivery_pendingEvicted _ _ _ h
  · intro h1 h2
    exact processDelivery_duplicate _ _ _ _ _ h1 h2

/-- Witness for C4 (amended): the webhook route answers a duplicate
DELIVERY-XYZ event with an already-processed response and enqueues
nothing, even though the pending cache is empty. -/
theorem ingestion_idempotency_boundary_witness :
    flutterwaveWebhook (some ("sec")) ("sec")
      { dataStatus := some ("successful"), txRef := some ("DELIVERY-XYZ"), amount := 100 }
      stDeliveryDup.ledger.transactions =
      (.alreadyProcessed ("DELIVERY-XYZ"), [.idempotencyQuery]) :=
  (ingestion_idempotency_boundary ("sec") _ stDeliveryDup.ledger.transactions
    ("DELIVERY-XYZ") dupDepositTxn 100 stDeliveryDup { senderId := "s", distance := 0 }
    rfl rfl (by decide)).1

/-- Counterexample for C4 as stated: DELIVERY-XYZ already has a ledger
row for order 7 and its pending intent has been evicted; the ingestion
service returns `pending_not_found`, not an already-processed result with
the existing order id. -/
theorem ingestion_idempotency_boundary_counterexample :
    (processSuccessfulDeliveryPayment ("DELIVERY-XYZ") 100 true stDeliveryDup).1 =
      .pendingNotFound
    ∧ PaymentResult.pendingNotFound ≠ .alreadyProcessed (some 7) := by
  refine ⟨?_, by simp⟩
  rw [processDelivery_pendingEvicted ("DELIVERY-XYZ") 100 stDeliveryDup rfl]

/- ──────────────────────────────────────────────────────────────
   C6: amount recomputation and rounding tolerance
   ────────────────────────────────────────────────────────────── -/

/-- C6: the ingestion recomputes the fee from the charges configuration
and the stored distance only (the pending intent holds no price), rounds
both the recomputed fee and the paid amount to two decimals, rejects —
creating no order row, leaving the whole state untouched — whenever the
rounded amounts differ, and accepts a sub-half-cent gateway residue. -/
theorem delivery_amount_recompute_and_tolerance (txRef : String) (st : PaymentState)
    (p : PendingDelivery) (c : Charges)
    (hp : lookupKey st.cache ("pending_delivery_" ++ txRef) = some p)
    (ht : st.ledger.transactions.find? (fun t0 => t0.txRef == txRef) = none)
    (hc : st.charges = some c) :
    (∀ paid : ℚ, round2 paid ≠ computedDeliveryFee c p.distance →
       processSuccessfulDeliveryPayment txRef paid true st = (.amountMismatch, st))
    ∧ (∀ ε : ℚ, |ε| < 1 / 200 →
       (processSuccessfulDeliveryPayment txRef (computedDeliveryFee c p.distance + ε) true st).1 =
         .success st.ledger.nextOrderId
       ∧ (processSuccessfulDeliveryPayment txRef (computedDeliveryFee c p.distance + ε) true
            st).2.ledger.orders =
           st.ledger.orders ++
             [deliveryOrderRow st.ledger.nextOrderId p (computedDeliveryFee c p.distance)
               (round2 (computedDeliveryFee c p.distance * c.deliveryCommissionRate)) txRef]) := by
  constructor
  · intro paid hne
    exact processDelivery_amountMismatch txRef paid st p c hp ht hc hne
  · intro ε hε
    have heq : round2 (computedDeliveryFee c p.distance + ε) = computedDeliveryFee c p.distance := by
      unfold computedDeliveryFee
      exact round2_stable_under_residue _ _ hε
    have h1 := processDelivery_success txRef _ st p c hp ht hc heq
    rw [h1]
    exact ⟨rfl, rfl⟩

/-- Witness for C6: on the fresh state a payment carrying a 0.4-cent
gateway residue (fee + 1/250) is accepted and materializes order 1. -/
theorem delivery_amount_recompute_and_tolerance_witness :
    (processSuccessfulDeliveryPayment ("DELIVERY-ABC")
      (computedDeliveryFee
        { baseDeliveryFee := 100, deliveryFeePerKm := 0, deliveryCommissionRate := 4 / 5 } 0
        + 1 / 250) true stDeliveryFresh).1 = .success 1 :=
  ((delivery_amount_recompute_and_tolerance ("DELIVERY-ABC") stDeliveryFresh
      { senderId := "s", distance := 0 }
      { baseDeliveryFee := 100, deliveryFeePerKm := 0, deliveryCommissionRate := 4 / 5 }
      (by decide) rfl rfl).2 (1 / 250)
      (by rw [abs_of_pos (by norm_num : (0 : ℚ) < 1 / 250)]; norm_num)).1

/- ──────────────────────────────────────────────────────────────
   C7: commission fallback
   ────────────────────────────────────────────────────────────── -/

/-- C7 (the code at the failing input): for every order vertical,
`get_commission_rate` with the configuration row missing does not raise —
it silently returns the fallback rate 0.8, contradicting the specified
fail-on-missing-configuration behaviour. -/
theorem commission_missing_config_returns_fallback :
    getCommissionRate ("DELIVERY") none = .ok (4 / 5)
    ∧ getCommissionRate ("FOOD") none = .ok (4 / 5)
    ∧ getCommissionRate ("LAUNDRY") none = .ok (4 / 5)
    ∧ getCommissionRate ("PRODUCT") none = .ok (4 / 5) :=
  ⟨rfl, rfl, rfl, rfl⟩

/- ──────────────────────────────────────────────────────────────
   C5: hold precondition and non-negative balances
   ────────────────────────────────────────────────────────────── -/

theorem setWallet_nonneg (m : WalletMap) (userId : String) (w : Wallet)
    (hm : WalletsNonneg m) (hw : 0 ≤ w.balance ∧ 0 ≤ w.escrowBalance) :
    WalletsNonneg (setWallet m userId w) := by
  intro u
  unfold setWallet
  by_cases hu : u = userId
  · simpa [hu] using hw
  · simpa [hu] using hm u

theorem applyOp_preserves_nonneg (m : WalletMap) (op : LedgerOp)
    (hm : WalletsNonneg m) : WalletsNonneg (applyOp m op) := by
  cases op with
  | hold payer amount =>
    simp only [applyOp]
    split
    · rename_i hg
      exact setWallet_nonneg _ _ _ hm
        ⟨by simp; linarith [hg.2], by simp; linarith [(hm payer).2, hg.1]⟩
    · exact hm
  | release payer payee fullAmount payeeShare =>
    simp only [applyOp]
    split
    · rename_i hg
      obtain ⟨hs0, hsf, hfe⟩ := hg
      have hm1 : WalletsNonneg (setWallet m payer
          { m payer with escrowBalance := (m payer).escrowBalance - fullAmount }) :=
        setWallet_nonneg _ _ _ hm ⟨(hm payer).1, by simp; linarith⟩
      exact setWallet_nonneg _ _ _ hm1
        ⟨by have h1 := (hm1 payee).1; simp at h1 ⊢; linarith, by simpa using (hm1 payee).2⟩
    · exact hm
  | refund payer amount =>
    simp only [applyOp]
    split
    · rename_i hg
      exact setWallet_nonneg _ _ _ hm
        ⟨by simp; linarith [(hm payer).1, hg.1], by simp; linarith [hg.2]⟩
    · exact hm
  | deposit user amount =>
    simp only [applyOp]
    split
    · rename_i hg
      exact setWallet_nonneg _ _ _ hm
        ⟨by have h1 := (hm user).1; simp at h1 ⊢; linarith, by simpa using (hm user).2⟩
    · exact hm

theorem foldl_applyOp_nonneg (ops : List LedgerOp) (m : WalletMap)
    (hm : WalletsNonneg m) : WalletsNonneg (ops.foldl applyOp m) := by
  induction ops generalizing m with
  | nil => exact hm
  | cons op rest ih => exact ih _ (applyOp_preserves_nonneg m op hm)

/-- C5 (amended): `verify_wallet_balance` rejects with a 400 whenever the
spendable balance is below the required amount, and every sequence of the
four guarded ledger primitives (hold, release, refund, deposit) keeps all
balances and escrow balances non-negative; escrow-agreement funding is
excluded because `fund_escrow_agreement` performs no balance check (see
the counterexample). -/
theorem wallet_hold_guard_and_nonneg :
    (∀ (wallets : List (String × Wallet)) (customerId : String) (amt : ℚ) (w : Wallet),
       lookupKey wallets customerId = some w → w.balance < amt →
       verifyWalletBalance wallets customerId amt = .error .badRequest)
    ∧ (∀ (m : WalletMap) (ops : List LedgerOp), WalletsNonneg m →
         WalletsNonneg (ops.foldl applyOp m)) := by
  constructor
  · intro wallets customerId amt w hw hlt
    simp [verifyWalletBalance, hw, hlt]
  · intro m ops hm
    exact foldl_applyOp_nonneg ops m hm

/-- Witness for C5 (amended): a 1000-balance wallet cannot cover a
2000 hold (Scenario A rejection side), and the Scenario A sequence —
hold 2000 from a 5000 balance, release 2000 with payee share 1600, then
a 500 deposit — keeps every wallet non-negative. -/
theorem wallet_hold_guard_and_nonneg_witness :
    verifyWalletBalance [("payer", { balance := 1000, escrowBalance := 0 })] ("payer") 2000 =
      .error .badRequest
    ∧ WalletsNonneg
        (([LedgerOp.hold ("sender") 2000,
           LedgerOp.release ("sender") ("rider") 2000 1600,
           LedgerOp.deposit ("rider") 500] : List LedgerOp).foldl applyOp
          (fun _ => { balance := 5000, escrowBalance := 0 })) :=
  ⟨wallet_hold_guard_and_nonneg.1 _ ("payer") 2000 _ rfl (by norm_num),
   wallet_hold_guard_and_nonneg.2 _ _ (fun _ => ⟨by norm_num, by norm_num⟩)⟩

/-- Counterexample for C5 as stated: `fund_escrow_agreement` holds the
full agreement amount with no balance precondition — funding a 500
agreement from a 100 balance succeeds and leaves the initiator with
balance −400 < 0. -/
theorem fund_escrow_agreement_negative_balance :
    (fundEscrowAgreement
        [{ id := "a", amount := 500, status := "READY_FOR_FUNDING", initiatorId := "init" }]
        ("a") ("init") (fun _ => { balance := 100, escrowBalance := 0 })).map
      (fun r => (r.2 ("init")).balance) = .ok (-400)
    ∧ ((-400 : ℚ) < 0) := by
  constructor
  · simp [fundEscrowAgreement, updateWalletBalance, setWallet, Except.map]
    norm_num
  · norm_num

/- ──────────────────────────────────────────────────────────────
   C10: wallet top-up cap
   ────────────────────────────────────────────────────────────── -/

/-- C10: `initiate_wallet_top_up` rejects with a 400 — creating no
pending intent — whenever the current balance is already at or above
₦50,000 or the requested top-up would push it above ₦50,000; the top-up
ingestion performs no cap check: whenever the pending intent matches and
the tx_ref is new it deposits unconditionally, regardless of the
resulting balance. -/
theorem topup_cap_checked_at_initiation_only :
    (∀ (wallets : List (String × Wallet)) (userId : String) (amount : ℚ),
       (MAX_BALANCE ≤ ((lookupKey wallets userId).map Wallet.balance).getD 0
        ∨ MAX_BALANCE < ((lookupKey wallets userId).map Wallet.balance).getD 0 + amount) →
       initiateWalletTopUp wallets userId amount = .error .badRequest)
    ∧ (∀ (txRef : String) (paid : ℚ) (st : TopupState) (p : PendingTopup),
       lookupKey st.cache ("pending_topup_" ++ txRef) = some p →
       round2 paid = round2 p.amount →
       st.transactions.find? (fun t0 => t0.txRef == txRef) = none →
       (processSuccessfulTopupPayment txRef paid true st).1 = .success
       ∧ (processSuccessfulTopupPayment txRef paid true st).2.wallets =
           updateUserWallet st.wallets p.userId (round2 paid) 0) := by
  constructor
  · intro wallets userId amount h
    simp only [initiateWalletTopUp]
    by_cases h0 : MAX_BALANCE ≤ ((lookupKey wallets userId).map Wallet.balance).getD 0
    · rw [if_pos h0]
    · rcases h with h | h
      · exact absurd h h0
      · rw [if_neg h0, if_pos h]
  · intro txRef paid st p hp heq hfind
    constructor <;> simp [processSuccessfulTopupPayment, hp, heq, hfind]

/-- Witness for C10: a 2000 top-up on a 49,000 balance is rejected at
initiation (49,000 + 2,000 > 50,000), while the ingestion of a pending
20,000 top-up on the same 49,000 balance succeeds — no cap check at
ingestion. -/
theorem topup_cap_checked_at_initiation_only_witness :
    initiateWalletTopUp [("u", { balance := 49000, escrowBalance := 0 })] ("u") 2000 =
      .error .badRequest
    ∧ (processSuccessfulTopupPayment ("TOPUP-1") 20000 true
        { cache := [("pending_topup_TOPUP-1", { userId := "u", amount := 20000 })],
          transactions := [],
          wallets := [("u", { balance := 49000, escrowBalance := 0 })] }).1 = .success :=
  ⟨topup_cap_checked_at_initiation_only.1 _ ("u") 2000
     (Or.inr (by simp [lookupKey, MAX_BALANCE]; norm_num)),
   (topup_cap_checked_at_initiation_only.2 ("TOPUP-1") 20000
     { cache := [("pending_topup_TOPUP-1", { userId := "u", amount := 20000 })],
       transactions := [],
       wallets := [("u", { balance := 49000, escrowBalance := 0 })] }
     { userId := "u", amount := 20000 } (by decide) rfl rfl).1⟩

end Servipal
